import Mathlib

/-
Verification of the LBO return model (helloworld.py, lbo.py).

The Python sources are shallowly embedded over ℚ (floats become exact
rationals; the external root-finder npf.irr is abstracted as a
`List ℚ → Option ℚ` argument, `none` standing for NaN or a raised
exception).  The fixed five-year horizon of `LBOCalculator` is the
constant `years`.
-/

/-- `LBOCalculator.years`: fixed 5-year projection period. -/
def years : Nat := 5

/-- `calculate_ebitda_schedule`: `entry_ebitda * (1 + ebitda_cagr) ** year`
for `year in range(years + 1)`. -/
def calculate_ebitda_schedule (entry_ebitda ebitda_cagr : ℚ) : List ℚ :=
  (List.range (years + 1)).map (fun year => entry_ebitda * (1 + ebitda_cagr) ^ year)

/-- `calculate_cash_flows`: available cash flow after interest, taxes and
capex; year 0 is forced to `0`.  The second argument is the
`Interest Payment` row of the debt-schedule DataFrame. -/
def calculate_cash_flows (ebitda_schedule interest_schedule : List ℚ)
    (tax_rate capex_pct : ℚ) : List ℚ :=
  (List.range (years + 1)).map (fun i =>
    if i = 0 then 0
    else
      let ebitda := ebitda_schedule.getD i 0
      let capex := ebitda * capex_pct
      let interest := interest_schedule.getD i 0
      let ebit := ebitda - capex
      let taxes := max 0 ((ebit - interest) * tax_rate)
      ebit - taxes - interest)

/-- One row of the financial schedule produced by
`calculate_financial_schedule`; `capex`, `interest` and `taxes` are stored
as negative numbers exactly as in the source. -/
structure FinRow where
  ebitda : ℚ
  capex : ℚ
  ebit : ℚ
  interest : ℚ
  ebt : ℚ
  taxes : ℚ
  net_income : ℚ
  free_cash_flow : ℚ
deriving Repr

/-- Loop body of `calculate_financial_schedule` for one year, given that
year's EBITDA and the (positive) interest payment from the debt schedule. -/
def finRow (ebitda interest_pos tax_rate capex_pct : ℚ) : FinRow :=
  let capex := -(ebitda * capex_pct)
  let interest := -interest_pos
  let ebit := ebitda + capex
  let ebt := ebit + interest
  let taxes := -(max 0 (ebt * tax_rate))
  let net_income := ebt + taxes
  let free_cash_flow := net_income - capex
  ⟨ebitda, capex, ebit, interest, ebt, taxes, net_income, free_cash_flow⟩

/-- `calculate_financial_schedule`: one `FinRow` per year 0..years
(the source computes year 0 like any other year). -/
def calculate_financial_schedule (ebitda_schedule interest_schedule : List ℚ)
    (tax_rate capex_pct : ℚ) : List FinRow :=
  (List.range (years + 1)).map (fun i =>
    finRow (ebitda_schedule.getD i 0) (interest_schedule.getD i 0) tax_rate capex_pct)

/-- One column of the debt-schedule DataFrame. -/
structure DebtRow where
  beginning_debt : ℚ
  interest_payment : ℚ
  debt_paydown : ℚ
  ending_debt : ℚ
deriving Repr

instance : Inhabited DebtRow := ⟨⟨0, 0, 0, 0⟩⟩

/-- Loop body of `calculate_debt_schedule` for one year `i ≥ 1`:
interest on the carried balance, then
`debt_paydown = min(max(0, cash_flow - interest), beginning_debt)`. -/
def debtRowStep (interest_rate prev_ending cf : ℚ) : DebtRow :=
  let beginning_debt := prev_ending
  let interest := beginning_debt * interest_rate
  let available_cash_after_interest := max 0 (cf - interest)
  let debt_paydown := min available_cash_after_interest beginning_debt
  ⟨beginning_debt, interest, debt_paydown, beginning_debt - debt_paydown⟩

/-- Rows of the debt schedule from year `i` on, carrying the previous
ending debt, for `n` remaining years. -/
def debtRowsFrom (interest_rate : ℚ) (cfs : List ℚ) : Nat → ℚ → Nat → List DebtRow
  | _, _, 0 => []
  | i, prev, n + 1 =>
    let row := debtRowStep interest_rate prev (cfs.getD i 0)
    row :: debtRowsFrom interest_rate cfs (i + 1) row.ending_debt n

/-- `calculate_debt_schedule`: year 0 holds the entry debt with no flows,
years 1..years are computed by `debtRowStep`. -/
def calculate_debt_schedule (entry_debt interest_rate : ℚ)
    (available_cash_flow : List ℚ) : List DebtRow :=
  ⟨entry_debt, 0, 0, entry_debt⟩ ::
    debtRowsFrom interest_rate available_cash_flow 1 entry_debt years

/-- One column of the cash-schedule DataFrame (`Less: Debt Paydown` is
stored negated, as in the source). -/
structure CashRow where
  beginning_cash : ℚ
  cash_generation : ℚ
  less_debt_paydown : ℚ
  ending_cash : ℚ
deriving Repr

instance : Inhabited CashRow := ⟨⟨0, 0, 0, 0⟩⟩

/-- Rows of the cash schedule from year `i`, carrying the previous ending
cash (year 0 starts from the DataFrame's zero initialization). -/
def cashRowsFrom (fcfs paydowns : List ℚ) : Nat → ℚ → Nat → List CashRow
  | _, _, 0 => []
  | i, prev, n + 1 =>
    let gen := fcfs.getD i 0
    let pd := paydowns.getD i 0
    let row : CashRow := ⟨prev, gen, -pd, prev + gen + -pd⟩
    row :: cashRowsFrom fcfs paydowns (i + 1) row.ending_cash n

/-- `calculate_cash_schedule`. -/
def calculate_cash_schedule (fcfs paydowns : List ℚ) : List CashRow :=
  cashRowsFrom fcfs paydowns 0 0 (years + 1)

/-- `calculate_irr`, line `flows = [-entry_equity] + cash_flows[1:-1] +
[exit_equity]`: the equity flow vector actually handed to the solver. -/
def irr_flows (entry_equity exit_equity : ℚ) (cash_flows : List ℚ) : List ℚ :=
  -entry_equity :: ((cash_flows.drop 1).dropLast ++ [exit_equity])

/-- `calculate_irr`: the solver argument stands for the external
`npf.irr`; `none` models a NaN result or a raised exception, both of which
the source maps to `0.0`. -/
def calculate_irr (solver : List ℚ → Option ℚ)
    (entry_equity exit_equity : ℚ) (cash_flows : List ℚ) : ℚ :=
  match solver (irr_flows entry_equity exit_equity cash_flows) with
  | some irr => irr
  | none => 0

/-- The scalar inputs collected by `main` (rates already divided by 100). -/
structure Assumptions where
  entry_ebitda : ℚ
  ebitda_cagr : ℚ
  entry_tev : ℚ
  exit_multiple : ℚ
  entry_debt : ℚ
  tax_rate : ℚ
  interest_rate : ℚ
  capex_pct : ℚ
deriving Repr

instance : Inhabited FinRow := ⟨⟨0, 0, 0, 0, 0, 0, 0, 0⟩⟩

/-- The `Interest Payment` row of `initial_debt_df`, the all-zero debt
schedule `main` uses for the first cash-flow pass. -/
def zero_interest_row : List ℚ := List.replicate (years + 1) 0

/-- `ebitda_schedule` in `main`. -/
def main_ebitda_schedule (a : Assumptions) : List ℚ :=
  calculate_ebitda_schedule a.entry_ebitda a.ebitda_cagr

/-- `initial_cash_flows` in `main` (computed against the all-zero debt
schedule, so no interest is deducted here); `unlevered_cash_flows` is the
same call with the same arguments. -/
def main_initial_cash_flows (a : Assumptions) : List ℚ :=
  calculate_cash_flows (main_ebitda_schedule a) zero_interest_row a.tax_rate a.capex_pct

/-- `debt_schedule` in `main`. -/
def main_debt_schedule (a : Assumptions) : List DebtRow :=
  calculate_debt_schedule a.entry_debt a.interest_rate (main_initial_cash_flows a)

/-- `financial_schedule` in `main`. -/
def main_financial_schedule (a : Assumptions) : List FinRow :=
  calculate_financial_schedule (main_ebitda_schedule a)
    ((main_debt_schedule a).map (fun r => r.interest_payment)) a.tax_rate a.capex_pct

/-- `exit_ebitda = ebitda_schedule[-1]`. -/
def main_exit_ebitda (a : Assumptions) : ℚ := (main_ebitda_schedule a).getD years 0

/-- `exit_tev = exit_ebitda * exit_multiple`. -/
def main_exit_tev (a : Assumptions) : ℚ := main_exit_ebitda a * a.exit_multiple

/-- `entry_equity = entry_tev - entry_debt`. -/
def main_entry_equity (a : Assumptions) : ℚ := a.entry_tev - a.entry_debt

/-- `exit_equity = exit_tev - debt_schedule.loc[Ending Debt, Year 5]`. -/
def main_exit_equity (a : Assumptions) : ℚ :=
  main_exit_tev a - ((main_debt_schedule a).getD years default).ending_debt

/-- `financial_schedule[Free Cash Flow].values`. -/
def main_fcf_list (a : Assumptions) : List ℚ :=
  (main_financial_schedule a).map (fun r => r.free_cash_flow)

/-- `debt_schedule.loc[Debt Paydown].values`. -/
def main_paydown_list (a : Assumptions) : List ℚ :=
  (main_debt_schedule a).map (fun r => r.debt_paydown)

/-- `cash_schedule` in `main`. -/
def main_cash_schedule (a : Assumptions) : List CashRow :=
  calculate_cash_schedule (main_fcf_list a) (main_paydown_list a)

/-- Year-5 ending cash of the cash schedule. -/
def main_ending_cash (a : Assumptions) : ℚ :=
  ((main_cash_schedule a).getD years default).ending_cash

/-- The equity flow vector of the levered IRR computation in `main`. -/
def main_levered_flows (a : Assumptions) : List ℚ :=
  irr_flows (main_entry_equity a) (main_exit_equity a) (main_fcf_list a)

/-- The equity flow vector of the unlevered IRR computation in `main`
(`unlevered_entry_equity = entry_tev`, `unlevered_exit_equity = exit_tev`). -/
def main_unlevered_flows (a : Assumptions) : List ℚ :=
  irr_flows a.entry_tev (main_exit_tev a) (main_initial_cash_flows a)

/-- Following the spec's words, for comparison with `main_exit_equity`:
`exitEquity = exitTEV - endingDebt[N] + endingCash[N]`
(net-debt convention, accumulated cash nets against remaining debt). -/
def exit_equity_spec (a : Assumptions) : ℚ :=
  main_exit_tev a - ((main_debt_schedule a).getD years default).ending_debt
    + main_ending_cash a

/-- `List.range (years + 1)` as a literal, for unfolding the schedules. -/
theorem range_years_succ : List.range (years + 1) = [0, 1, 2, 3, 4, 5] := by decide

/-- A zero-leverage, zero-rate sample assumption set: entryEBITDA 100,
CAGR 0, entryTEV 1000, exit multiple 10, no debt, no taxes, no interest,
no capex.  Free cash flow is 100 every year and never swept to debt, so
ending cash at year 5 is 600. -/
def sampleNoDebt : Assumptions := ⟨100, 0, 1000, 10, 0, 0, 0, 0⟩

/-- Like `sampleNoDebt` but with capex at 10% of EBITDA. -/
def sampleCapex : Assumptions := ⟨100, 0, 1000, 10, 0, 0, 0, 1 / 10⟩

/-- C5 counterexample: with entry equity 1, exit equity 10 and yearly
flows `[0,1,2,3,4,5]`, the vector built by the source is
`[-1,1,2,3,4,10]` — the final entry is the exit equity alone — and not
`[-1,1,2,3,4,5+10]` as the claim (`f_N + exitEquity`) states. -/
theorem irr_flows_drop_final_flow_cex :
    irr_flows 1 10 [0, 1, 2, 3, 4, 5] = [-1, 1, 2, 3, 4, 10] ∧
    irr_flows 1 10 [0, 1, 2, 3, 4, 5] ≠ [-1, 1, 2, 3, 4, 5 + 10] := by
  constructor
  · rfl
  · norm_num [irr_flows]

/-- C5 (amended): the vector handed to the solver is
`[-entryEquity, f_1, ..., f_{N-1}, exitEquity]`: the year-N intermediate
flow is dropped and the final entry is the exit equity alone. -/
theorem irr_flows_final_entry_exit_only (e x f0 f1 f2 f3 f4 f5 : ℚ) :
    irr_flows e x [f0, f1, f2, f3, f4, f5] = [-e, f1, f2, f3, f4, x] := by
  rfl

/-- C1 counterexample: for an assumption set with negative entry equity
(entryEquity = -5) every entry of the equity flow vector is positive, so
there is no sign change and `npf.irr` yields NaN (modelled by the solver
returning `none`); `calculate_irr` then returns the plain number `0`,
not an absent-result value. -/
theorem calculate_irr_zero_fallback_cex :
    irr_flows (-5) 10 [0, 1, 1, 1, 1, 1] = [5, 1, 1, 1, 1, 10] ∧
    calculate_irr (fun _ => none) (-5) 10 [0, 1, 1, 1, 1, 1] = 0 := by
  constructor
  · rfl
  · rfl

/-- C1 (amended): whenever the root-finder fails (NaN or exception,
modelled by `none` — in particular on a no-sign-change vector),
`calculate_irr` falls back to returning the sentinel `0.0`, conflating
absence of an IRR with a zero IRR. -/
theorem calculate_irr_zero_fallback (solver : List ℚ → Option ℚ)
    (e x : ℚ) (cfs : List ℚ) (h : solver (irr_flows e x cfs) = none) :
    calculate_irr solver e x cfs = 0 := by
  simp [calculate_irr, h]

/-- C1 witness: the fallback theorem applied to a concrete failing solve. -/
theorem calculate_irr_zero_fallback_witness :
    (fun _ : List ℚ => (none : Option ℚ)) (irr_flows (-5) 10 [0, 1, 1, 1, 1, 1]) = none ∧
    calculate_irr (fun _ => none) (-5) 10 [0, 1, 1, 1, 1, 1] = 0 :=
  ⟨rfl, calculate_irr_zero_fallback (fun _ => none) (-5) 10 [0, 1, 1, 1, 1, 1] rfl⟩

/-- C2 counterexample: on `sampleNoDebt` the code's exit equity is 1000
(`exitTEV - endingDebt[5]` with no cash add-back) while the spec formula
`exitTEV - endingDebt[5] + endingCash[5]` gives 1600: year-5 ending cash
is 600 and is not netted in. -/
theorem exit_equity_ignores_cash_cex :
    main_exit_equity sampleNoDebt = 1000 ∧
    exit_equity_spec sampleNoDebt = 1600 ∧
    main_exit_equity sampleNoDebt ≠ exit_equity_spec sampleNoDebt := by
  norm_num [main_exit_equity, exit_equity_spec, main_exit_tev, main_exit_ebitda,
    main_ebitda_schedule, calculate_ebitda_schedule, main_debt_schedule,
    calculate_debt_schedule, debtRowsFrom, debtRowStep, main_initial_cash_flows,
    calculate_cash_flows, zero_interest_row, main_ending_cash, main_cash_schedule,
    calculate_cash_schedule, cashRowsFrom, main_fcf_list, main_financial_schedule,
    calculate_financial_schedule, finRow, main_paydown_list, range_years_succ,
    years, sampleNoDebt]

/-- C2 (amended): the exit equity computed by `main` is
`exitTEV - endingDebt[5]`; the year-5 ending cash is omitted, so the code
falls short of the spec's net-debt formula by exactly `endingCash[5]`. -/
theorem exit_equity_omits_ending_cash (a : Assumptions) :
    main_exit_equity a = exit_equity_spec a - main_ending_cash a := by
  unfold main_exit_equity exit_equity_spec
  ring

/-- C4 counterexample: on `sampleCapex`, year 1 of the financial schedule
has EBT 90 and taxes 0, so EBT minus taxes (net income) is 90 — but the
recorded free cash flow is 100: the line
`free_cash_flow = net_income - capex` with `capex` stored negative adds
the capex back. -/
theorem free_cash_flow_capex_addback_cex :
    ((main_financial_schedule sampleCapex).getD 1 default).free_cash_flow = 100 ∧
    ((main_financial_schedule sampleCapex).getD 1 default).ebt
      + ((main_financial_schedule sampleCapex).getD 1 default).taxes = 90 ∧
    ((main_financial_schedule sampleCapex).getD 1 default).free_cash_flow ≠
      ((main_financial_schedule sampleCapex).getD 1 default).ebt
        + ((main_financial_schedule sampleCapex).getD 1 default).taxes := by
  norm_num [main_financial_schedule, calculate_financial_schedule, finRow,
    main_ebitda_schedule, calculate_ebitda_schedule, main_debt_schedule,
    calculate_debt_schedule, debtRowsFrom, debtRowStep, main_initial_cash_flows,
    calculate_cash_flows, zero_interest_row, range_years_succ, years, sampleCapex]

/-- C4 (amended): for every year of the financial schedule, the recorded
free cash flow is net income (EBT plus the negatively-stored taxes) with
the year's capex added back: `freeCashFlow = EBT - taxes + ebitda * capexPct`. -/
theorem free_cash_flow_eq_net_income_plus_capex (a : Assumptions) (y : Nat)
    (hy : y < years + 1) :
    ((main_financial_schedule a).getD y default).free_cash_flow
      = ((main_financial_schedule a).getD y default).ebt
        + ((main_financial_schedule a).getD y default).taxes
        + ((main_ebitda_schedule a).getD y 0) * a.capex_pct := by
  have hy5 : y < 6 := hy
  interval_cases y <;>
    simp [main_financial_schedule, calculate_financial_schedule, finRow,
      range_years_succ]

/-- C4 witness: the amended free-cash-flow formula at `sampleCapex`, year 1. -/
theorem free_cash_flow_eq_net_income_plus_capex_witness :
    (1 : Nat) < years + 1 ∧
    ((main_financial_schedule sampleCapex).getD 1 default).free_cash_flow
      = ((main_financial_schedule sampleCapex).getD 1 default).ebt
        + ((main_financial_schedule sampleCapex).getD 1 default).taxes
        + ((main_ebitda_schedule sampleCapex).getD 1 0) * sampleCapex.capex_pct :=
  ⟨by norm_num [years], free_cash_flow_eq_net_income_plus_capex sampleCapex 1 (by norm_num [years])⟩

/-- C9 counterexample: with a non-positive entry EBITDA (-100) and CAGR
10% the projection is performed anyway — the EBITDA schedule is computed
with no rejection of the input (the source contains no validation at
all, and the horizon is hard-coded to 5). -/
theorem no_input_validation_cex :
    calculate_ebitda_schedule (-100) (1 / 10)
      = [-100, -110, -121, -1331 / 10, -14641 / 100, -161051 / 1000] := by
  norm_num [calculate_ebitda_schedule, range_years_succ]

/-- C9 (amended): the source performs no input validation: for any
assumption set with non-positive entry EBITDA the projection engine still
runs, producing a full-length EBITDA schedule that starts at the given
entry EBITDA, and a full-length levered equity flow vector (the
projection horizon is fixed at `years = 5` and can never be negative). -/
theorem projection_runs_on_nonpositive_ebitda (a : Assumptions)
    (h : a.entry_ebitda ≤ 0) :
    (main_ebitda_schedule a).length = years + 1 ∧
    (main_ebitda_schedule a).getD 0 0 = a.entry_ebitda ∧
    (main_levered_flows a).length = years + 1 := by
  refine ⟨?_, ?_, ?_⟩
  · simp [main_ebitda_schedule, calculate_ebitda_schedule]
  · simp [main_ebitda_schedule, calculate_ebitda_schedule, range_years_succ]
  · simp [main_levered_flows, irr_flows, main_fcf_list, main_financial_schedule,
      calculate_financial_schedule, range_years_succ, years]

/-- C9 witness: the engine runs on entry EBITDA -100. -/
theorem projection_runs_on_nonpositive_ebitda_witness :
    (Assumptions.mk (-100) (1 / 10) 2000 19 800 (1 / 4) (2 / 25) (1 / 10)).entry_ebitda ≤ 0 ∧
    (main_ebitda_schedule (Assumptions.mk (-100) (1 / 10) 2000 19 800 (1 / 4) (2 / 25) (1 / 10))).length = years + 1 ∧
    (main_ebitda_schedule (Assumptions.mk (-100) (1 / 10) 2000 19 800 (1 / 4) (2 / 25) (1 / 10))).getD 0 0
      = (Assumptions.mk (-100) (1 / 10) 2000 19 800 (1 / 4) (2 / 25) (1 / 10)).entry_ebitda ∧
    (main_levered_flows (Assumptions.mk (-100) (1 / 10) 2000 19 800 (1 / 4) (2 / 25) (1 / 10))).length = years + 1 := by
  refine ⟨by norm_num, ?_⟩
  have := projection_runs_on_nonpositive_ebitda
    (Assumptions.mk (-100) (1 / 10) 2000 19 800 (1 / 4) (2 / 25) (1 / 10)) (by norm_num)
  exact this

/-- The first row of a nonempty `debtRowsFrom` block begins at the carried
previous ending debt. -/
theorem debtRowsFrom_head_beginning (r : ℚ) (cfs : List ℚ) (i : Nat) (prev : ℚ)
    (n : Nat) (hn : 0 < n) :
    ((debtRowsFrom r cfs i prev n).getD 0 default).beginning_debt = prev := by
  cases n with
  | zero => exact absurd hn (Nat.lt_irrefl 0)
  | succ n => simp [debtRowsFrom, debtRowStep]

/-- Every row of `debtRowsFrom` satisfies the loop-body equations:
interest is the rate on beginning debt, paydown is
`min(max(0, cf - interest), beginning_debt)`, and ending debt is
beginning debt less paydown. -/
theorem debtRowsFrom_shape (r : ℚ) (cfs : List ℚ) :
    ∀ (n i : Nat) (prev : ℚ) (j : Nat), j < n →
      ((debtRowsFrom r cfs i prev n).getD j default).interest_payment
          = ((debtRowsFrom r cfs i prev n).getD j default).beginning_debt * r ∧
      ((debtRowsFrom r cfs i prev n).getD j default).debt_paydown
          = min (max 0 (cfs.getD (i + j) 0
              - ((debtRowsFrom r cfs i prev n).getD j default).interest_payment))
            ((debtRowsFrom r cfs i prev n).getD j default).beginning_debt ∧
      ((debtRowsFrom r cfs i prev n).getD j default).ending_debt
          = ((debtRowsFrom r cfs i prev n).getD j default).beginning_debt
            - ((debtRowsFrom r cfs i prev n).getD j default).debt_paydown := by
  intro n
  induction n with
  | zero => intro i prev j hj; exact absurd hj (Nat.not_lt_zero j)
  | succ n ih =>
    intro i prev j hj
    cases j with
    | zero => simp [debtRowsFrom, debtRowStep]
    | succ j =>
      have hj2 : j < n := Nat.lt_of_succ_lt_succ hj
      have h := ih (i + 1) ((debtRowStep r prev (cfs.getD i 0)).ending_debt) j hj2
      have hidx : i + (j + 1) = (i + 1) + j := by omega
      simp only [debtRowsFrom, List.getD_cons_succ, hidx]
      exact h

/-- Chaining: each row of `debtRowsFrom` begins at the previous row's
ending debt. -/
theorem debtRowsFrom_chain (r : ℚ) (cfs : List ℚ) :
    ∀ (n i : Nat) (prev : ℚ) (j : Nat), j + 1 < n →
      ((debtRowsFrom r cfs i prev n).getD (j + 1) default).beginning_debt
        = ((debtRowsFrom r cfs i prev n).getD j default).ending_debt := by
  intro n
  induction n with
  | zero => intro i prev j hj; exact absurd hj (Nat.not_lt_zero _)
  | succ n ih =>
    intro i prev j hj
    cases j with
    | zero =>
      have hn : 0 < n := Nat.lt_of_succ_lt_succ hj
      simp only [debtRowsFrom, List.getD_cons_succ, List.getD_cons_zero]
      rw [debtRowsFrom_head_beginning r cfs _ _ _ hn]
    | succ j =>
      have hj2 : j + 1 < n := Nat.lt_of_succ_lt_succ hj
      have h := ih (i + 1) ((debtRowStep r prev (cfs.getD i 0)).ending_debt) j hj2
      simpa [debtRowsFrom] using h

/-- The ending debt of one `debtRowStep` stays nonnegative when the
carried balance is. -/
theorem debtRowStep_ending_nonneg (r prev cf : ℚ) (h : 0 ≤ prev) :
    0 ≤ (debtRowStep r prev cf).ending_debt := by
  simp only [debtRowStep]
  have hle := min_le_right (max 0 (cf - prev * r)) prev
  linarith

/-- Beginning debt stays nonnegative along `debtRowsFrom` when the entry
balance is nonnegative. -/
theorem debtRowsFrom_beginning_nonneg (r : ℚ) (cfs : List ℚ) :
    ∀ (n i : Nat) (prev : ℚ), 0 ≤ prev → ∀ j, j < n →
      0 ≤ ((debtRowsFrom r cfs i prev n).getD j default).beginning_debt := by
  intro n
  induction n with
  | zero => intro i prev hp j hj; exact absurd hj (Nat.not_lt_zero _)
  | succ n ih =>
    intro i prev hp j hj
    cases j with
    | zero => simpa [debtRowsFrom, debtRowStep] using hp
    | succ j =>
      have hj2 : j < n := Nat.lt_of_succ_lt_succ hj
      have h := ih (i + 1) ((debtRowStep r prev (cfs.getD i 0)).ending_debt)
        (debtRowStep_ending_nonneg r prev (cfs.getD i 0) hp) j hj2
      simpa [debtRowsFrom] using h

/-- C6 counterexample: entry debt 100, interest rate 10%, year-1 available
cash flow 5.  The source deducts the 10 of interest again before paydown,
so the actual paydown is 0 — not `min(max(0, 5), 100) = 5` as the claim
(whole free cash flow offered to paydown) states. -/
theorem debt_paydown_interest_deduction_cex :
    ((calculate_debt_schedule 100 (1 / 10) [0, 5, 0, 0, 0, 0]).getD 1 default).debt_paydown = 0 ∧
    min (max 0 (5 : ℚ))
      ((calculate_debt_schedule 100 (1 / 10) [0, 5, 0, 0, 0, 0]).getD 1 default).beginning_debt = 5 ∧
    ((calculate_debt_schedule 100 (1 / 10) [0, 5, 0, 0, 0, 0]).getD 1 default).debt_paydown ≠
      min (max 0 (5 : ℚ))
        ((calculate_debt_schedule 100 (1 / 10) [0, 5, 0, 0, 0, 0]).getD 1 default).beginning_debt := by
  norm_num [calculate_debt_schedule, debtRowsFrom, debtRowStep, years,
    min_def, max_def]

/-- C6 (amended): for every year `1 ≤ y ≤ 5`, the cash offered to debt
paydown is `max(0, availableCashFlow[y] - interestPayment[y])` — interest
is deducted from the passed cash flow (which was computed against a
zero-interest schedule) — and
`debtPaydown[y] = min(max(0, cf[y] - interest[y]), beginningDebt[y])`
with `interestPayment[y] = beginningDebt[y] * rate`. -/
theorem debt_paydown_formula (e r : ℚ) (cfs : List ℚ) (y : Nat)
    (h1 : 1 ≤ y) (h2 : y ≤ years) :
    ((calculate_debt_schedule e r cfs).getD y default).interest_payment
      = ((calculate_debt_schedule e r cfs).getD y default).beginning_debt * r ∧
    ((calculate_debt_schedule e r cfs).getD y default).debt_paydown
      = min (max 0 (cfs.getD y 0
          - ((calculate_debt_schedule e r cfs).getD y default).interest_payment))
        ((calculate_debt_schedule e r cfs).getD y default).beginning_debt := by
  obtain ⟨k, rfl⟩ : ∃ k, y = k + 1 := ⟨y - 1, by omega⟩
  have hk : k < years := by omega
  have h := debtRowsFrom_shape r cfs years 1 e k hk
  have hidx : 1 + k = k + 1 := Nat.add_comm 1 k
  rw [calculate_debt_schedule]
  simp only [List.getD_cons_succ]
  exact ⟨h.1, by rw [← hidx]; exact h.2.1⟩

/-- C6 witness: the paydown formula at entry debt 800, rate 8%, year 1. -/
theorem debt_paydown_formula_witness :
    ((1 : Nat) ≤ 1 ∧ (1 : Nat) ≤ years) ∧
    (((calculate_debt_schedule 800 (2 / 25) [0, 50, 60, 70, 80, 90]).getD 1 default).interest_payment
        = ((calculate_debt_schedule 800 (2 / 25) [0, 50, 60, 70, 80, 90]).getD 1 default).beginning_debt * (2 / 25) ∧
      ((calculate_debt_schedule 800 (2 / 25) [0, 50, 60, 70, 80, 90]).getD 1 default).debt_paydown
        = min (max 0 (([0, 50, 60, 70, 80, 90] : List ℚ).getD 1 0
            - ((calculate_debt_schedule 800 (2 / 25) [0, 50, 60, 70, 80, 90]).getD 1 default).interest_payment))
          ((calculate_debt_schedule 800 (2 / 25) [0, 50, 60, 70, 80, 90]).getD 1 default).beginning_debt) :=
  ⟨⟨Nat.le_refl 1, by decide⟩,
   debt_paydown_formula 800 (2 / 25) [0, 50, 60, 70, 80, 90] 1 (Nat.le_refl 1) (by decide)⟩

/-- C7 counterexample: with a negative entry debt (-1) — which the input
widget accepts — year 1 has beginning debt -1 but ending debt 0: the
paydown `min(max(0, cf - interest), -1) = -1` pushes the balance up, so
`endingDebt[1] ≤ beginningDebt[1]` fails and debt is not non-increasing. -/
theorem debt_invariants_negative_entry_cex :
    ((calculate_debt_schedule (-1) 0 [0, 0, 0, 0, 0, 0]).getD 1 default).beginning_debt = -1 ∧
    ((calculate_debt_schedule (-1) 0 [0, 0, 0, 0, 0, 0]).getD 1 default).ending_debt = 0 ∧
    ¬ (((calculate_debt_schedule (-1) 0 [0, 0, 0, 0, 0, 0]).getD 1 default).ending_debt
        ≤ ((calculate_debt_schedule (-1) 0 [0, 0, 0, 0, 0, 0]).getD 1 default).beginning_debt) := by
  norm_num [calculate_debt_schedule, debtRowsFrom, debtRowStep, years,
    min_def, max_def]

/-- C7 (amended): for every assumption set with nonnegative entry debt and
every year `1 ≤ y ≤ 5` of the debt schedule:
`0 ≤ endingDebt[y] ≤ beginningDebt[y]`,
`beginningDebt[y] = endingDebt[y-1]`, and hence ending debt is
monotonically non-increasing across years. -/
theorem debt_schedule_invariants (e r : ℚ) (cfs : List ℚ) (he : 0 ≤ e)
    (y : Nat) (h1 : 1 ≤ y) (h2 : y ≤ years) :
    0 ≤ ((calculate_debt_schedule e r cfs).getD y default).ending_debt ∧
    ((calculate_debt_schedule e r cfs).getD y default).ending_debt
      ≤ ((calculate_debt_schedule e r cfs).getD y default).beginning_debt ∧
    ((calculate_debt_schedule e r cfs).getD y default).beginning_debt
      = ((calculate_debt_schedule e r cfs).getD (y - 1) default).ending_debt ∧
    ((calculate_debt_schedule e r cfs).getD y default).ending_debt
      ≤ ((calculate_debt_schedule e r cfs).getD (y - 1) default).ending_debt := by
  obtain ⟨k, rfl⟩ : ∃ k, y = k + 1 := ⟨y - 1, by omega⟩
  have hk : k < years := by omega
  have hbeg := debtRowsFrom_beginning_nonneg r cfs years 1 e he k hk
  obtain ⟨hint, hpd, hend⟩ := debtRowsFrom_shape r cfs years 1 e k hk
  have hpd_nonneg : 0 ≤ ((debtRowsFrom r cfs 1 e years).getD k default).debt_paydown := by
    rw [hpd]; exact le_min (le_max_left _ _) hbeg
  have hpd_le : ((debtRowsFrom r cfs 1 e years).getD k default).debt_paydown
      ≤ ((debtRowsFrom r cfs 1 e years).getD k default).beginning_debt := by
    rw [hpd]; exact min_le_right _ _
  have hchain : ((debtRowsFrom r cfs 1 e years).getD k default).beginning_debt
      = ((calculate_debt_schedule e r cfs).getD k default).ending_debt := by
    cases k with
    | zero =>
      rw [calculate_debt_schedule]
      simp only [List.getD_cons_zero]
      exact debtRowsFrom_head_beginning r cfs 1 e years (by decide)
    | succ j =>
      rw [calculate_debt_schedule]
      simp only [List.getD_cons_succ]
      exact debtRowsFrom_chain r cfs years 1 e j hk
  rw [calculate_debt_schedule]
  simp only [List.getD_cons_succ, Nat.add_sub_cancel]
  rw [calculate_debt_schedule] at hchain
  refine ⟨?_, ?_, hchain, ?_⟩
  · rw [hend]; linarith
  · rw [hend]; linarith
  · rw [hend, hchain]; linarith

/-- C7 witness: the invariants at entry debt 800, rate 8%, year 1. -/
theorem debt_schedule_invariants_witness :
    ((0 : ℚ) ≤ 800 ∧ (1 : Nat) ≤ 1 ∧ (1 : Nat) ≤ years) ∧
    (0 ≤ ((calculate_debt_schedule 800 (2 / 25) [0, 50, 60, 70, 80, 90]).getD 1 default).ending_debt ∧
      ((calculate_debt_schedule 800 (2 / 25) [0, 50, 60, 70, 80, 90]).getD 1 default).ending_debt
        ≤ ((calculate_debt_schedule 800 (2 / 25) [0, 50, 60, 70, 80, 90]).getD 1 default).beginning_debt ∧
      ((calculate_debt_schedule 800 (2 / 25) [0, 50, 60, 70, 80, 90]).getD 1 default).beginning_debt
        = ((calculate_debt_schedule 800 (2 / 25) [0, 50, 60, 70, 80, 90]).getD 0 default).ending_debt ∧
      ((calculate_debt_schedule 800 (2 / 25) [0, 50, 60, 70, 80, 90]).getD 1 default).ending_debt
        ≤ ((calculate_debt_schedule 800 (2 / 25) [0, 50, 60, 70, 80, 90]).getD 0 default).ending_debt) :=
  ⟨⟨by norm_num, Nat.le_refl 1, by decide⟩,
   debt_schedule_invariants 800 (2 / 25) [0, 50, 60, 70, 80, 90] (by norm_num) 1
     (Nat.le_refl 1) (by decide)⟩

/-- One tuple appended to `debt_schedule` in `calculate_lbo_irr` (lbo.py):
`(year, debt_balance, interest_payment, debt_repayment)` with
`debt_balance` recorded after the repayment. -/
structure LboDebtRow where
  year : Nat
  debt_balance : ℚ
  interest_payment : ℚ
  debt_repayment : ℚ
deriving Repr

instance : Inhabited LboDebtRow := ⟨⟨0, 0, 0, 0⟩⟩

/-- The debt loop of `calculate_lbo_irr`: each year pays interest on the
outstanding balance and repays the fixed fraction `debt_paydown` of it,
irrespective of cash flows. -/
def lbo_debt_rows (interest_rate debt_paydown : ℚ) : Nat → ℚ → Nat → List LboDebtRow
  | _, _, 0 => []
  | year, balance, n + 1 =>
    let interest_payment := balance * interest_rate
    let debt_repayment := balance * debt_paydown
    let new_balance := balance - debt_repayment
    ⟨year, new_balance, interest_payment, debt_repayment⟩ ::
      lbo_debt_rows interest_rate debt_paydown (year + 1) new_balance n

/-- The debt schedule of `calculate_lbo_irr` over `nyears` years starting
from `entry_debt`. -/
def calculate_lbo_irr_debt_schedule (entry_debt interest_rate debt_paydown : ℚ)
    (nyears : Nat) : List LboDebtRow :=
  lbo_debt_rows interest_rate debt_paydown 1 entry_debt nyears

/-- Each recorded balance of `lbo_debt_rows` is the carried balance decayed
geometrically by `(1 - debt_paydown)` once per elapsed year. -/
theorem lbo_debt_rows_balance (r dp : ℚ) :
    ∀ (n year : Nat) (b : ℚ) (j : Nat), j < n →
      ((lbo_debt_rows r dp year b n).getD j default).debt_balance
        = b * (1 - dp) ^ (j + 1) := by
  intro n
  induction n with
  | zero => intro year b j hj; exact absurd hj (Nat.not_lt_zero _)
  | succ n ih =>
    intro year b j hj
    cases j with
    | zero =>
      simp [lbo_debt_rows]
      ring
    | succ j =>
      have hj2 : j < n := Nat.lt_of_succ_lt_succ hj
      have h := ih (year + 1) (b - b * dp) j hj2
      simp only [lbo_debt_rows, List.getD_cons_succ]
      rw [h]
      ring

/-- C10: in the `calculate_lbo_irr` variant (lbo.py) debt amortizes by the
fixed fraction `debt_paydown` of the outstanding balance each year, so for
every year `1 ≤ y ≤ nyears` the recorded ending debt is
`entryDebt * (1 - debt_paydown)^y`; in particular, for positive entry debt
and `0 < debt_paydown < 1`, the balance at exit (year `nyears`) is
strictly positive — the debt never fully amortizes. -/
theorem lbo_debt_balance_closed_form (entry_debt interest_rate debt_paydown : ℚ)
    (nyears y : Nat) (h1 : 1 ≤ y) (h2 : y ≤ nyears) :
    ((calculate_lbo_irr_debt_schedule entry_debt interest_rate debt_paydown nyears).getD
        (y - 1) default).debt_balance
      = entry_debt * (1 - debt_paydown) ^ y ∧
    (0 < entry_debt → 0 < debt_paydown → debt_paydown < 1 →
      0 < ((calculate_lbo_irr_debt_schedule entry_debt interest_rate debt_paydown nyears).getD
          (nyears - 1) default).debt_balance) := by
  have hbal : ∀ z : Nat, 1 ≤ z → z ≤ nyears →
      ((calculate_lbo_irr_debt_schedule entry_debt interest_rate debt_paydown nyears).getD
          (z - 1) default).debt_balance
        = entry_debt * (1 - debt_paydown) ^ z := by
    intro z hz1 hz2
    obtain ⟨k, rfl⟩ : ∃ k, z = k + 1 := ⟨z - 1, by omega⟩
    have hk : k < nyears := by omega
    simpa [calculate_lbo_irr_debt_schedule] using
      lbo_debt_rows_balance interest_rate debt_paydown nyears 1 entry_debt k hk
  refine ⟨hbal y h1 h2, ?_⟩
  intro he hd0 hd1
  have hN : 1 ≤ nyears := Nat.le_trans h1 h2
  rw [hbal nyears hN (Nat.le_refl nyears)]
  have hpos : (0 : ℚ) < 1 - debt_paydown := by linarith
  exact mul_pos he (pow_pos hpos nyears)

/-- C10 witness: the example call of lbo.py (entry debt 90, rate 5%,
paydown fraction 10%, 5 years) at year 5: the exit balance is
`90 * (9/10)^5 > 0`. -/
theorem lbo_debt_balance_closed_form_witness :
    ((1 : Nat) ≤ 5 ∧ (5 : Nat) ≤ 5) ∧
    (((calculate_lbo_irr_debt_schedule 90 (1 / 20) (1 / 10) 5).getD 4 default).debt_balance
        = 90 * (1 - 1 / 10) ^ 5 ∧
      (0 < (90 : ℚ) → 0 < (1 / 10 : ℚ) → (1 / 10 : ℚ) < 1 →
        0 < ((calculate_lbo_irr_debt_schedule 90 (1 / 20) (1 / 10) 5).getD 4 default).debt_balance)) :=
  ⟨⟨by decide, by decide⟩,
   lbo_debt_balance_closed_form 90 (1 / 20) (1 / 10) 5 5 (by decide) (by decide)⟩

/-- The eight components returned by `calculate_irr_decomposition`,
over ℝ (the source computes with floats and a real fifth root). -/
structure DecompositionResult where
  ebitda_growth : ℝ
  multiple_change : ℝ
  tev_growth : ℝ
  yield_component : ℝ
  covariance : ℝ
  unlevered_irr : ℝ
  leverage_impact : ℝ
  levered_irr : ℝ

/-- `calculate_irr_decomposition`: annualized growth components via the
real `1/years` power, yield as inverse entry multiple, covariance and
leverage impact as residuals. -/
noncomputable def calculate_irr_decomposition
    (entry_ebitda exit_ebitda entry_multiple exit_multiple levered_irr unlevered_irr : ℝ) :
    DecompositionResult :=
  let ebitda_growth := (exit_ebitda / entry_ebitda) ^ ((1 : ℝ) / (years : ℝ)) - 1
  let multiple_change := (exit_multiple / entry_multiple) ^ ((1 : ℝ) / (years : ℝ)) - 1
  let tev_growth := (1 + ebitda_growth) * (1 + multiple_change) - 1
  let yield_component := 1 / entry_multiple
  let covariance := unlevered_irr - (tev_growth + yield_component)
  let leverage_impact := levered_irr - unlevered_irr
  ⟨ebitda_growth, multiple_change, tev_growth, yield_component, covariance,
    unlevered_irr, leverage_impact, levered_irr⟩

/-- C8: for every valid input (positive entry EBITDA and entry multiple),
the decomposition satisfies
`leveredIRR = tevGrowth + yieldComponent + covariance + leverageImpact`
within 1e-6 relative tolerance (the residual definitions of covariance and
leverage impact make the identity exact in real arithmetic). -/
theorem irr_decomposition_identity
    (entry_ebitda exit_ebitda entry_multiple exit_multiple levered_irr unlevered_irr : ℝ)
    (h1 : 0 < entry_ebitda) (h2 : 0 < entry_multiple) :
    |((calculate_irr_decomposition entry_ebitda exit_ebitda entry_multiple exit_multiple
          levered_irr unlevered_irr).tev_growth
        + (calculate_irr_decomposition entry_ebitda exit_ebitda entry_multiple exit_multiple
            levered_irr unlevered_irr).yield_component
        + (calculate_irr_decomposition entry_ebitda exit_ebitda entry_multiple exit_multiple
            levered_irr unlevered_irr).covariance
        + (calculate_irr_decomposition entry_ebitda exit_ebitda entry_multiple exit_multiple
            levered_irr unlevered_irr).leverage_impact)
      - levered_irr|
      ≤ 1 / 1000000 * |levered_irr| := by
  have hz : ((calculate_irr_decomposition entry_ebitda exit_ebitda entry_multiple exit_multiple
          levered_irr unlevered_irr).tev_growth
        + (calculate_irr_decomposition entry_ebitda exit_ebitda entry_multiple exit_multiple
            levered_irr unlevered_irr).yield_component
        + (calculate_irr_decomposition entry_ebitda exit_ebitda entry_multiple exit_multiple
            levered_irr unlevered_irr).covariance
        + (calculate_irr_decomposition entry_ebitda exit_ebitda entry_multiple exit_multiple
            levered_irr unlevered_irr).leverage_impact)
      - levered_irr = 0 := by
    simp only [calculate_irr_decomposition]
    ring
  rw [hz, abs_zero]
  positivity

/-- C8 witness: the identity at entry EBITDA 100, exit EBITDA 150, entry
multiple 20, exit multiple 19, levered IRR 0.3, unlevered IRR 0.2. -/
theorem irr_decomposition_identity_witness :
    ((0 : ℝ) < 100 ∧ (0 : ℝ) < 20) ∧
    |((calculate_irr_decomposition 100 150 20 19 (3 / 10) (1 / 5)).tev_growth
        + (calculate_irr_decomposition 100 150 20 19 (3 / 10) (1 / 5)).yield_component
        + (calculate_irr_decomposition 100 150 20 19 (3 / 10) (1 / 5)).covariance
        + (calculate_irr_decomposition 100 150 20 19 (3 / 10) (1 / 5)).leverage_impact)
      - 3 / 10|
      ≤ 1 / 1000000 * |(3 / 10 : ℝ)| :=
  ⟨⟨by norm_num, by norm_num⟩,
   irr_decomposition_identity 100 150 20 19 (3 / 10) (1 / 5) (by norm_num) (by norm_num)⟩

/-- One debt-schedule step from a zero balance leaves everything at zero
(the paydown `min(max(0, cf), 0)` is 0). -/
theorem debtRowStep_zero (r cf : ℚ) : debtRowStep r 0 cf = ⟨0, 0, 0, 0⟩ := by
  simp only [debtRowStep, zero_mul, sub_zero]
  have hm : min (max 0 cf) (0 : ℚ) = 0 := min_eq_right (le_max_left 0 cf)
  rw [hm]
  norm_num

/-- From a zero balance, every later debt row is all zero. -/
theorem debtRowsFrom_zero (r : ℚ) (cfs : List ℚ) :
    ∀ (n i : Nat), debtRowsFrom r cfs i 0 n = List.replicate n ⟨0, 0, 0, 0⟩ := by
  intro n
  induction n with
  | zero => intro i; rfl
  | succ n ih =>
    intro i
    simp [debtRowsFrom, debtRowStep_zero, List.replicate_succ, ih]

/-- With zero entry debt the whole debt schedule of `main` is zero. -/
theorem main_debt_schedule_no_debt (a : Assumptions) (hd : a.entry_debt = 0) :
    main_debt_schedule a = List.replicate (years + 1) ⟨0, 0, 0, 0⟩ := by
  unfold main_debt_schedule calculate_debt_schedule
  rw [hd, debtRowsFrom_zero]
  rfl

/-- With zero entry debt the interest row fed to the financial schedule is
the all-zero row. -/
theorem main_interest_row_no_debt (a : Assumptions) (hd : a.entry_debt = 0) :
    (main_debt_schedule a).map (fun r => r.interest_payment) = zero_interest_row := by
  rw [main_debt_schedule_no_debt a hd]
  rfl

/-- With zero entry debt the levered exit equity equals the exit TEV. -/
theorem main_exit_equity_no_debt (a : Assumptions) (hd : a.entry_debt = 0) :
    main_exit_equity a = main_exit_tev a := by
  unfold main_exit_equity
  rw [main_debt_schedule_no_debt a hd]
  have hz : ((List.replicate (years + 1) (⟨0, 0, 0, 0⟩ : DebtRow)).getD years
      default).ending_debt = 0 := rfl
  rw [hz, sub_zero]

/-- With zero entry debt and zero capex the intermediate flows of the
levered run (financial-schedule free cash flows) agree with the unlevered
flows from year 1 on, so the two equity flow vectors coincide. -/
theorem levered_flows_eq_unlevered (a : Assumptions) (hd : a.entry_debt = 0)
    (hc : a.capex_pct = 0) :
    main_levered_flows a = main_unlevered_flows a := by
  have hentry : main_entry_equity a = a.entry_tev := by
    unfold main_entry_equity
    rw [hd]
    ring
  have hdrop : (main_fcf_list a).drop 1 = (main_initial_cash_flows a).drop 1 := by
    unfold main_fcf_list main_financial_schedule
    rw [main_interest_row_no_debt a hd]
    unfold main_initial_cash_flows calculate_financial_schedule calculate_cash_flows
    rw [show zero_interest_row = [0, 0, 0, 0, 0, 0] from rfl]
    simp only [hc, range_years_succ, List.map_cons, List.map_nil,
      List.drop_succ_cons, List.drop_zero, List.getD_cons_zero,
      List.getD_cons_succ, finRow]
    norm_num
    refine ⟨by ring, by ring, by ring, by ring, by ring⟩
  unfold main_levered_flows main_unlevered_flows irr_flows
  rw [hentry, main_exit_equity_no_debt a hd, hdrop]

/-- C3 (amended): with zero entry debt the levered and unlevered analyses
use the same entry equity (`entryTEV`) and the same exit equity
(`exitTEV`), but their intermediate flows still differ by the capex
add-back of the financial schedule; when additionally `capexPct = 0` the
two IRR computations receive identical flow vectors and therefore return
the same result for any (deterministic) solver. -/
theorem levered_irr_eq_unlevered_no_debt_no_capex (a : Assumptions)
    (solver : List ℚ → Option ℚ) (hd : a.entry_debt = 0) (hc : a.capex_pct = 0) :
    calculate_irr solver (main_entry_equity a) (main_exit_equity a) (main_fcf_list a)
      = calculate_irr solver a.entry_tev (main_exit_tev a) (main_initial_cash_flows a) := by
  have h := levered_flows_eq_unlevered a hd hc
  unfold main_levered_flows main_unlevered_flows at h
  unfold calculate_irr
  rw [h]

/-- C3 witness: levered and unlevered IRR agree on `sampleNoDebt`
(entry debt 0, capex 0) for a concrete solver. -/
theorem levered_irr_eq_unlevered_no_debt_no_capex_witness :
    (sampleNoDebt.entry_debt = 0 ∧ sampleNoDebt.capex_pct = 0) ∧
    calculate_irr (fun _ => none) (main_entry_equity sampleNoDebt)
        (main_exit_equity sampleNoDebt) (main_fcf_list sampleNoDebt)
      = calculate_irr (fun _ => none) sampleNoDebt.entry_tev
          (main_exit_tev sampleNoDebt) (main_initial_cash_flows sampleNoDebt) :=
  ⟨⟨rfl, rfl⟩,
   levered_irr_eq_unlevered_no_debt_no_capex sampleNoDebt (fun _ => none) rfl rfl⟩

/-- Modelled from the spec: the net present value
`Σ flows[y] / (1+r)^y` whose root the external solver `npf.irr` (absent
from src) seeks; a rate is an IRR of a flow vector exactly when its npv
is zero. -/
def npv (flows : List ℚ) (r : ℚ) : ℚ :=
  ((List.range flows.length).map (fun y => flows.getD y 0 / (1 + r) ^ y)).sum

/-- `List.range 6` as a literal. -/
theorem range_six : List.range 6 = [0, 1, 2, 3, 4, 5] := by decide

/-- `npv` on a six-entry vector, written out. -/
theorem npv_six (a0 a1 a2 a3 a4 a5 r : ℚ) :
    npv [a0, a1, a2, a3, a4, a5] r
      = a0 + a1 / (1 + r) + a2 / (1 + r) ^ 2 + a3 / (1 + r) ^ 3
        + a4 / (1 + r) ^ 4 + a5 / (1 + r) ^ 5 := by
  have hlen : ([a0, a1, a2, a3, a4, a5] : List ℚ).length = 6 := rfl
  rw [npv, hlen, range_six]
  simp
  ring

/-- C3 counterexample: on `sampleCapex` (entry debt 0 but capex 10%) the
levered run hands the solver `[-1000, 100, 100, 100, 100, 1000]` while
the unlevered run hands it `[-1000, 90, 90, 90, 90, 1000]`: the
intermediate flows are not identical, and no rate is simultaneously a
root of both npv polynomials, so the levered and unlevered IRRs cannot be
equal. -/
theorem unlevered_irr_flows_differ_cex :
    sampleCapex.entry_debt = 0 ∧
    main_levered_flows sampleCapex = [-1000, 100, 100, 100, 100, 1000] ∧
    main_unlevered_flows sampleCapex = [-1000, 90, 90, 90, 90, 1000] ∧
    main_levered_flows sampleCapex ≠ main_unlevered_flows sampleCapex ∧
    ¬ ∃ r : ℚ, -1 < r ∧ npv (main_levered_flows sampleCapex) r = 0 ∧
        npv (main_unlevered_flows sampleCapex) r = 0 := by
  have h1 : main_levered_flows sampleCapex = [-1000, 100, 100, 100, 100, 1000] := by
    norm_num [main_levered_flows, irr_flows, main_entry_equity, main_exit_equity,
      main_exit_tev, main_exit_ebitda, main_ebitda_schedule, calculate_ebitda_schedule,
      main_fcf_list, main_financial_schedule, calculate_financial_schedule, finRow,
      main_debt_schedule, calculate_debt_schedule, debtRowsFrom, debtRowStep,
      main_initial_cash_flows, calculate_cash_flows, zero_interest_row,
      range_years_succ, range_six, years, sampleCapex, min_def, max_def,
      List.replicate, List.getD_cons_zero, List.getD_cons_succ]
  have h2 : main_unlevered_flows sampleCapex = [-1000, 90, 90, 90, 90, 1000] := by
    norm_num [main_unlevered_flows, irr_flows, main_exit_tev, main_exit_ebitda,
      main_ebitda_schedule, calculate_ebitda_schedule, main_initial_cash_flows,
      calculate_cash_flows, zero_interest_row, range_years_succ, range_six, years,
      sampleCapex, max_def, List.replicate, List.getD_cons_zero, List.getD_cons_succ]
  refine ⟨rfl, h1, h2, ?_, ?_⟩
  · rw [h1, h2]
    norm_num
  · rintro ⟨r, hr, hl, hu⟩
    rw [h1, npv_six] at hl
    rw [h2, npv_six] at hu
    have hs : (0 : ℚ) < 1 + r := by linarith
    have hkey : (10 : ℚ) / (1 + r) + 10 / (1 + r) ^ 2 + 10 / (1 + r) ^ 3
        + 10 / (1 + r) ^ 4 = 0 := by
      linear_combination hl - hu
    have p1 : (0 : ℚ) < 10 / (1 + r) := div_pos (by norm_num) hs
    have p2 : (0 : ℚ) < 10 / (1 + r) ^ 2 := div_pos (by norm_num) (pow_pos hs 2)
    have p3 : (0 : ℚ) < 10 / (1 + r) ^ 3 := div_pos (by norm_num) (pow_pos hs 3)
    have p4 : (0 : ℚ) < 10 / (1 + r) ^ 4 := div_pos (by norm_num) (pow_pos hs 4)
    linarith
